import Mathlib

/-!
Verification of the ALICE master-database pipeline
(build_master_database.js) against its natural-language specification.

The pipeline reads per-state spreadsheet workbooks, normalizes the rows of
the County and Subcounty sheets into canonical geographic records, computes
percentage rates, and aggregates national / per-state rollups and extremal
rankings.  Cell values coming out of the spreadsheet are modelled as
Option String (none = absent cell); JavaScript numbers on the data path are
integers (parseInt results) and exact rationals (rate arithmetic; the
floating-point double computation followed by toFixed(1) is modelled as
exact rational arithmetic rounded to the nearest tenth).
-/

/-- JavaScript truthiness of a spreadsheet cell: an absent cell (undefined)
and the empty string are falsy, every other string is truthy. -/
def truthy : Option String → Bool
  | none => false
  | some s => s ≠ ""

/-- Value of a cell that has been checked truthy. -/
def strOf (c : Option String) : String := c.getD ""

/-- JavaScript logical-or on cells: yields the left value when it is
truthy, otherwise the right value. -/
def jsOr (a b : Option String) : Option String :=
  if truthy a then a else b

/-- String.prototype.padStart(n, c): left-pad to length n; a string already
of length at least n is returned unchanged (padStart never truncates). -/
def padStart (s : String) (n : Nat) (c : Char) : String :=
  String.mk (List.replicate (n - s.length) c) ++ s

/-- Longest leading run of decimal digits. -/
def leadingDigits : List Char → List Char
  | [] => []
  | c :: cs => if c.isDigit then c :: leadingDigits cs else []

/-- Numeric value of a digit string. -/
def digitsVal (ds : List Char) : Nat :=
  ds.foldl (fun a c => 10 * a + (c.toNat - 48)) 0

/-- Parse the leading digit run; none when there is no digit (NaN). -/
def parseDigits (cs : List Char) : Option Int :=
  match leadingDigits cs with
  | [] => none
  | ds => some (digitsVal ds : Int)

/-- JavaScript parseInt (base 10, as used on household-count cells):
skip leading whitespace, optional sign, longest digit run; none models the
NaN result. -/
def jsParseInt (s : String) : Option Int :=
  let cs := s.toList.dropWhile (fun c => c.isWhitespace)
  match cs with
  | '-' :: rest => (parseDigits rest).map (fun n => -n)
  | '+' :: rest => parseDigits rest
  | _ => parseDigits cs

/-- Models the idiom parseInt(cell) || 0: NaN (and an absent cell) becomes
0; parseInt never returns a nonzero falsy number, so a successful parse is
kept. -/
def parseIntOr0 (c : Option String) : Int :=
  (c.bind jsParseInt).getD 0

/-- Models the idiom parseInt(cell) || null: NaN (and an absent cell)
becomes null, and so does a parse result of 0, because the number 0 is
falsy in JavaScript. -/
def parseIntOrNull (c : Option String) : Option Int :=
  match c.bind jsParseInt with
  | some n => if n = 0 then none else some n
  | none => none

/-- Number.prototype.toFixed(1) on the data path, modelled as exact
rational rounding to the nearest tenth (half rounds up). -/
def toFixed1 (x : ℚ) : ℚ :=
  ((⌊10 * x + 1 / 2⌋ : Int) : ℚ) / 10

/-- Does the haystack start with the needle? -/
def listStartsWith : List Char → List Char → Bool
  | _, [] => true
  | [], _ :: _ => false
  | h :: hs, n :: ns => h == n && listStartsWith hs ns

/-- Does the needle occur contiguously in the haystack? -/
def listContainsSub : List Char → List Char → Bool
  | [], needle => needle.isEmpty
  | h :: hs, needle => listStartsWith (h :: hs) needle || listContainsSub hs needle

/-- String.prototype.includes: needle occurs as a contiguous substring of
the haystack. -/
def containsSub (hay needle : String) : Bool :=
  listContainsSub hay.toList needle.toList

/-- String.prototype.toLowerCase, character by character. -/
def strToLower (s : String) : String :=
  String.mk (s.toList.map Char.toLower)

/-- One raw row of a County sheet (sheet_to_json output); field names map
the spreadsheet column headers, e.g. geoId2 is the cell of column
GEO id2 and povertyHHBlack the cell of column Poverty HH Black. -/
structure CountyRow where
  geoId2 : Option String := none
  geoDisplayLabel : Option String := none
  state : Option String := none
  stateAbbr : Option String := none
  county : Option String := none
  year : Option String := none
  households : Option String := none
  povertyHouseholds : Option String := none
  aliceHouseholds : Option String := none
  aboveAliceHouseholds : Option String := none
  povertyHHBlack : Option String := none
  povertyHHHispanic : Option String := none
  povertyHHWhite : Option String := none
  aliceHHBlack : Option String := none
  aliceHHHispanic : Option String := none
  aliceHHWhite : Option String := none
deriving DecidableEq

/-- One raw row of a Subcounty sheet; type is the cell of column Type. -/
structure SubcountyRow where
  geoId2 : Option String := none
  type : Option String := none
  geoDisplayLabel : Option String := none
  state : Option String := none
  county : Option String := none
  year : Option String := none
  households : Option String := none
  povertyHouseholds : Option String := none
  aliceHouseholds : Option String := none
  aboveAliceHouseholds : Option String := none
deriving DecidableEq

/-- Canonical output record of the pipeline (the object literals built at
lines 35-65 and 104-126 of build_master_database.js). -/
structure GeoRecord where
  geoID : String
  geoLevel : String
  geoType : Option String
  geoDisplayLabel : Option String
  state : Option String
  stateAbbr : Option String
  county : Option String
  year : Option String
  totalHouseholds : Int
  povertyHouseholds : Int
  aliceHouseholds : Int
  aboveAliceHouseholds : Int
  povertyRate : ℚ
  aliceRate : ℚ
  combinedRate : ℚ
  povertyHH_Black : Option Int
  povertyHH_Hispanic : Option Int
  povertyHH_White : Option Int
  aliceHH_Black : Option Int
  aliceHH_Hispanic : Option Int
  aliceHH_White : Option Int
  dataSource : String
deriving DecidableEq

/-- The record built for a qualifying County-sheet row.  Rates start at 0
and are overwritten only when totalHouseholds is positive, exactly as in
the source (lines 52-54 and 68-72). -/
def countyRecordOf (row : CountyRow) : GeoRecord :=
  let tot : Int := parseIntOr0 row.households
  let pov : Int := parseIntOr0 row.povertyHouseholds
  let ali : Int := parseIntOr0 row.aliceHouseholds
  { geoID := padStart (strOf row.geoId2) 5 '0'
    geoLevel := "county"
    geoType := none
    geoDisplayLabel := jsOr row.geoDisplayLabel row.county
    state := row.state
    stateAbbr := row.stateAbbr
    county := row.county
    year := row.year
    totalHouseholds := tot
    povertyHouseholds := pov
    aliceHouseholds := ali
    aboveAliceHouseholds := parseIntOr0 row.aboveAliceHouseholds
    povertyRate := if 0 < tot then toFixed1 ((pov : ℚ) / (tot : ℚ) * 100) else 0
    aliceRate := if 0 < tot then toFixed1 ((ali : ℚ) / (tot : ℚ) * 100) else 0
    combinedRate := if 0 < tot then toFixed1 (((pov : ℚ) + (ali : ℚ)) / (tot : ℚ) * 100) else 0
    povertyHH_Black := parseIntOrNull row.povertyHHBlack
    povertyHH_Hispanic := parseIntOrNull row.povertyHHHispanic
    povertyHH_White := parseIntOrNull row.povertyHHWhite
    aliceHH_Black := parseIntOrNull row.aliceHHBlack
    aliceHH_Hispanic := parseIntOrNull row.aliceHHHispanic
    aliceHH_White := parseIntOrNull row.aliceHHWhite
    dataSource := "County Sheet" }

/-- County-sheet normalization: only rows with a truthy GEO id2 cell emit
a record (line 34). -/
def normalizeCountyRow (row : CountyRow) : Option GeoRecord :=
  if truthy row.geoId2 then some (countyRecordOf row) else none

/-- Geographic-level inference for a Subcounty row (lines 88-102): when the
Type cell is truthy, the first of city, town, cdp, tract whose text occurs
in the lower-cased Type wins, with subcounty as fallback; when Type is not
truthy and the identifier has exactly 11 characters the level is tract. -/
def subcountyGeoLevel (ty : Option String) (geoID : String) : String :=
  let lvl :=
    if truthy ty then
      let t := strToLower (strOf ty)
      if containsSub t "city" then "city"
      else if containsSub t "town" then "town"
      else if containsSub t "cdp" then "cdp"
      else if containsSub t "tract" then "tract"
      else "subcounty"
    else "subcounty"
  if truthy ty = false ∧ geoID.length = 11 then "tract" else lvl

/-- The record built for a qualifying Subcounty-sheet row (lines 104-133);
the identifier is kept verbatim (no padding) and the demographic breakdown
columns are not read on this sheet. -/
def subcountyRecordOf (row : SubcountyRow) : GeoRecord :=
  let geoID := strOf row.geoId2
  let tot : Int := parseIntOr0 row.households
  let pov : Int := parseIntOr0 row.povertyHouseholds
  let ali : Int := parseIntOr0 row.aliceHouseholds
  { geoID := geoID
    geoLevel := subcountyGeoLevel row.type geoID
    geoType := jsOr row.type (some "subcounty")
    geoDisplayLabel := row.geoDisplayLabel
    state := row.state
    stateAbbr := none
    county := jsOr row.county none
    year := row.year
    totalHouseholds := tot
    povertyHouseholds := pov
    aliceHouseholds := ali
    aboveAliceHouseholds := parseIntOr0 row.aboveAliceHouseholds
    povertyRate := if 0 < tot then toFixed1 ((pov : ℚ) / (tot : ℚ) * 100) else 0
    aliceRate := if 0 < tot then toFixed1 ((ali : ℚ) / (tot : ℚ) * 100) else 0
    combinedRate := if 0 < tot then toFixed1 (((pov : ℚ) + (ali : ℚ)) / (tot : ℚ) * 100) else 0
    povertyHH_Black := none
    povertyHH_Hispanic := none
    povertyHH_White := none
    aliceHH_Black := none
    aliceHH_Hispanic := none
    aliceHH_White := none
    dataSource := "Subcounty Sheet" }

/-- Subcounty-sheet normalization: only rows with a truthy GEO id2 cell
emit a record (line 87). -/
def normalizeSubcountyRow (row : SubcountyRow) : Option GeoRecord :=
  if truthy row.geoId2 then some (subcountyRecordOf row) else none

/-- One input workbook: a sheet named County or Subcounty may be absent
(lines 29 and 82 guard on SheetNames.includes). -/
structure Workbook where
  countySheet : Option (List CountyRow) := none
  subcountySheet : Option (List SubcountyRow) := none
deriving DecidableEq

/-- Records contributed by one workbook: County-sheet rows first, then
Subcounty-sheet rows, in sheet order; rows without a truthy identifier are
dropped. -/
def processWorkbook (wb : Workbook) : List GeoRecord :=
  (match wb.countySheet with
   | some rows => rows.filterMap normalizeCountyRow
   | none => []) ++
  (match wb.subcountySheet with
   | some rows => rows.filterMap normalizeSubcountyRow
   | none => [])

/-- One iteration of the file loop (lines 20-143).  XLSX.readFile can
throw, modelled by the file argument being an error value; the loop body
contains no try/catch, so once an error is raised no further file is
processed and the accumulated records are lost with the rejected call. -/
def buildStep (acc : Except String (List GeoRecord)) (file : Except String Workbook) :
    Except String (List GeoRecord) :=
  match acc, file with
  | Except.ok recs, Except.ok wb => Except.ok (recs ++ processWorkbook wb)
  | Except.error e, _ => Except.error e
  | Except.ok _, Except.error e => Except.error e

/-- buildMasterDatabase over a directory of input files, each either a
readable workbook or a read/parse failure. -/
def buildMasterDatabase (files : List (Except String Workbook)) :
    Except String (List GeoRecord) :=
  files.foldl buildStep (Except.ok [])

/-- The main driver, named main in the source (lines 278-293; the name is
reserved in Lean): a single try/catch wraps the whole build, so any error
yields no database at all (the catch only logs). -/
def mainPipeline (files : List (Except String Workbook)) : Option (List GeoRecord) :=
  match buildMasterDatabase files with
  | Except.ok db => some db
  | Except.error _ => none

/-- The aggregated.national accumulator object (lines 198-203), before the
rate fields are attached. -/
structure NationalTotals where
  totalHouseholds : Int
  povertyHouseholds : Int
  aliceHouseholds : Int
  aboveAliceHouseholds : Int
deriving DecidableEq

/-- One aggregated.byState entry (lines 221-226); note it carries no
aboveAliceHouseholds field. -/
structure StateAgg where
  totalHouseholds : Int
  povertyHouseholds : Int
  aliceHouseholds : Int
  counties : List (Option String)
deriving DecidableEq

/-- The byState object, modelled as a map keyed by the record's state
cell (a JS object keyed by the state display name; an absent state cell
keys the single slot modelled by none). -/
abbrev StateMap := Option String → Option StateAgg

/-- The fresh zero entry created at lines 221-226. -/
def emptyStateAgg : StateAgg := ⟨0, 0, 0, []⟩

/-- Lines 228-231: add one county record into a state entry. -/
def stateUpd (prev : StateAgg) (r : GeoRecord) : StateAgg :=
  { totalHouseholds := prev.totalHouseholds + r.totalHouseholds
    povertyHouseholds := prev.povertyHouseholds + r.povertyHouseholds
    aliceHouseholds := prev.aliceHouseholds + r.aliceHouseholds
    counties := prev.counties ++ [r.county] }

/-- One iteration of database.forEach (lines 211-233): only records with
geoLevel = county touch the national or per-state rollups. -/
def aggStep (acc : NationalTotals × StateMap) (r : GeoRecord) : NationalTotals × StateMap :=
  if r.geoLevel = "county" then
    ({ totalHouseholds := acc.1.totalHouseholds + r.totalHouseholds
       povertyHouseholds := acc.1.povertyHouseholds + r.povertyHouseholds
       aliceHouseholds := acc.1.aliceHouseholds + r.aliceHouseholds
       aboveAliceHouseholds := acc.1.aboveAliceHouseholds + r.aboveAliceHouseholds },
     fun s =>
       if s = r.state then some (stateUpd ((acc.2 r.state).getD emptyStateAgg) r)
       else acc.2 s)
  else acc

/-- Entry of the highestCombinedRate / lowestCombinedRate lists
(lines 245-259). -/
structure ExtremeEntry where
  location : String
  combinedRate : ℚ
  povertyRate : ℚ
  aliceRate : ℚ
  totalHouseholds : Int
deriving DecidableEq

/-- How a template literal prints a missing field. -/
def optDisplay : Option String → String
  | some s => s
  | none => "undefined"

/-- The summary object built for one extreme county. -/
def toExtremeEntry (r : GeoRecord) : ExtremeEntry :=
  { location := optDisplay r.county ++ ", " ++ optDisplay (jsOr r.stateAbbr r.state)
    combinedRate := r.combinedRate
    povertyRate := r.povertyRate
    aliceRate := r.aliceRate
    totalHouseholds := r.totalHouseholds }

/-- The filter at line 242: county-level records with positive combined
rate. -/
def extremesPred (r : GeoRecord) : Bool :=
  r.geoLevel == "county" && decide (0 < r.combinedRate)

/-- Descending order on combinedRate: the comparator at line 243. -/
def rateGE (a b : GeoRecord) : Prop := b.combinedRate ≤ a.combinedRate

instance : DecidableRel rateGE :=
  fun a b => inferInstanceAs (Decidable (b.combinedRate ≤ a.combinedRate))

instance : IsTotal GeoRecord rateGE :=
  ⟨fun a b => le_total b.combinedRate a.combinedRate⟩

instance : IsTrans GeoRecord rateGE :=
  ⟨fun _ _ _ h1 h2 => le_trans h2 h1⟩

/-- Lines 241-243: filter then sort.  Array.prototype.sort is stable
(ES2019) and filter returns a fresh array, so this is a stable descending
sort of a copy; insertion sort with ties kept in encounter order realizes
exactly that semantics. -/
def sortedByRate (database : List GeoRecord) : List GeoRecord :=
  List.insertionSort rateGE (database.filter extremesPred)

/-- Array.prototype.slice(-n): the last n elements (all of them when the
array is shorter). -/
def sliceLast (n : Nat) (l : List α) : List α :=
  l.drop (l.length - n)

/-- Lines 236-238: a national rate.  There is no division-by-zero guard
here; when the denominator is 0 the JS double division produces NaN (or
Infinity), which toFixed renders as a non-numeric string — modelled as
none. -/
def jsRateOf (num den : Int) : Option ℚ :=
  if den = 0 then none else some (toFixed1 ((num : ℚ) / (den : ℚ) * 100))

/-- The aggregated.national object after the rate fields are attached. -/
structure NationalStats where
  totalHouseholds : Int
  povertyHouseholds : Int
  aliceHouseholds : Int
  aboveAliceHouseholds : Int
  povertyRate : Option ℚ
  aliceRate : Option ℚ
  combinedRate : Option ℚ
deriving DecidableEq

/-- The aggregated statistics object (byCounty, initialized to an empty
object at line 205 and never written, is omitted). -/
structure AggStats where
  national : NationalStats
  byState : StateMap
  highestCombinedRate : List ExtremeEntry
  lowestCombinedRate : List ExtremeEntry

/-- createAggregatedStats (lines 194-275): fold the record collection into
national and per-state totals, attach national rates, and compute the ten
highest and ten lowest positive-rate counties. -/
def createAggregatedStats (database : List GeoRecord) : AggStats :=
  let folded := database.foldl aggStep (⟨0, 0, 0, 0⟩, fun _ => none)
  let n := folded.1
  let sorted := sortedByRate database
  { national :=
      { totalHouseholds := n.totalHouseholds
        povertyHouseholds := n.povertyHouseholds
        aliceHouseholds := n.aliceHouseholds
        aboveAliceHouseholds := n.aboveAliceHouseholds
        povertyRate := jsRateOf n.povertyHouseholds n.totalHouseholds
        aliceRate := jsRateOf n.aliceHouseholds n.totalHouseholds
        combinedRate := jsRateOf (n.povertyHouseholds + n.aliceHouseholds) n.totalHouseholds }
    byState := folded.2
    highestCombinedRate := (sorted.take 10).map toExtremeEntry
    lowestCombinedRate := ((sliceLast 10 sorted).reverse).map toExtremeEntry }

/-- Read an array address in the explicit array store used to model
aliasing and in-place mutation. -/
def readArr (h : List (List GeoRecord)) (i : Nat) : List GeoRecord :=
  (h[i]?).getD []

/-- createAggregatedStats with the array mutations made explicit:
database.forEach only reads the database; database.filter allocates a
fresh array; .sort mutates that fresh array in place.  The function
returns the statistics together with the final store. -/
def createAggregatedStatsHeap (h : List (List GeoRecord)) (dbRef : Nat) :
    AggStats × List (List GeoRecord) :=
  let database := readArr h dbRef
  let h1 := h ++ [database.filter extremesPred]
  let copyRef := h.length
  let h2 := h1.set copyRef (List.insertionSort rateGE (readArr h1 copyRef))
  (createAggregatedStats database, h2)

/-- The specification text of the Subcounty level-inference policy, stated
as an explicit first-match rule list: lower-cased Type is matched against
city, town, cdp, tract in priority order; with no truthy Type an
11-character identifier means tract, anything else subcounty. -/
def claimGeoLevel (ty : Option String) (geoID : String) : String :=
  if truthy ty then
    (List.find? (fun n => containsSub (strToLower (strOf ty)) n)
        ["city", "town", "cdp", "tract"]).getD "subcounty"
  else if geoID.length = 11 then "tract" else "subcounty"

/-- The corrected contract of an optional demographic field: null exactly
when the column is absent, unparseable, or parses to 0; the parsed count
is carried only when it is nonzero. -/
def nullableField (cell : Option String) (v : Option Int) : Prop :=
  (cell = none → v = none) ∧
  (cell.bind jsParseInt = some 0 → v = none) ∧
  (∀ n : Int, cell.bind jsParseInt = some n → n ≠ 0 → v = some n) ∧
  (cell ≠ none → cell.bind jsParseInt = none → v = none)

/-- The §8 county example row: Households 1000, Poverty 150, ALICE 300,
identifier 1001. -/
def exCountyRow : CountyRow :=
  { geoId2 := some "1001", households := some "1000",
    povertyHouseholds := some "150", aliceHouseholds := some "300" }

/-- A county row whose identifier is longer than 5 characters. -/
def exLongRow : CountyRow := { geoId2 := some "123456" }

/-- A county row whose Poverty HH Black column is present with value 0. -/
def exZeroRow : CountyRow := { geoId2 := some "1001", povertyHHBlack := some "0" }

/-- A county row whose Poverty HH Black column is present with value 7. -/
def exSevenRow : CountyRow := { geoId2 := some "1001", povertyHHBlack := some "7" }

/-- A county row with zero households. -/
def exZeroHHRow : CountyRow := { geoId2 := some "1001", households := some "0" }

/-- The §8 subcounty example: a spelled-out Census Designated Place type. -/
def exCdpLitRow : SubcountyRow :=
  { geoId2 := some "1234567", type := some "Census Designated Place" }

/-- A subcounty row whose Type contains the letters cdp. -/
def exCdpRow : SubcountyRow := { geoId2 := some "1234567", type := some "Lakewood CDP" }

/-- A subcounty row with no Type and an 11-character identifier. -/
def exTractRow : SubcountyRow := { geoId2 := some "12345678901" }

/-- A subcounty row with no Type and a short identifier. -/
def exPlainRow : SubcountyRow := { geoId2 := some "12345" }

/-- A one-row workbook used by the pipeline examples. -/
def exWorkbook : Workbook := { countySheet := some [exCountyRow] }

/-- Build a bare GeoRecord for aggregator tests. -/
def mkRec (lvl cnty : String) (tot pov ali : Int) (cr : ℚ) : GeoRecord :=
  { geoID := "00000", geoLevel := lvl, geoType := none, geoDisplayLabel := none,
    state := some "Testland", stateAbbr := some "TL", county := some cnty, year := none,
    totalHouseholds := tot, povertyHouseholds := pov, aliceHouseholds := ali,
    aboveAliceHouseholds := 0, povertyRate := 0, aliceRate := 0, combinedRate := cr,
    povertyHH_Black := none, povertyHH_Hispanic := none, povertyHH_White := none,
    aliceHH_Black := none, aliceHH_Hispanic := none, aliceHH_White := none,
    dataSource := "County Sheet" }

/-- Counties with combined rates 10, 50, 50, 5, in collection order. -/
def exA : GeoRecord := mkRec "county" "Alpha" 100 10 0 10
def exB : GeoRecord := mkRec "county" "Beta" 100 25 25 50
def exC : GeoRecord := mkRec "county" "Gamma" 100 20 30 50
def exD : GeoRecord := mkRec "county" "Delta" 100 5 0 5
def exDb : List GeoRecord := [exA, exB, exC, exD]

/-- A subcounty-level record carrying households that must not reach any
rollup. -/
def exSubRec : GeoRecord := mkRec "subcounty" "Omega" 500 50 100 30

/-- The county-level records of a collection, in collection order. -/
def countyRecords (db : List GeoRecord) : List GeoRecord :=
  db.filter (fun r => r.geoLevel == "county")

/-- Sum of an integer field over a record collection. -/
def sumBy (db : List GeoRecord) (f : GeoRecord → Int) : Int :=
  (db.map f).sum

/-- Read one integer total out of a byState map; 0 when the state has no
entry. -/
def stateTotal (m : StateMap) (s : Option String) (f : StateAgg → Int) : Int :=
  match m s with
  | some a => f a
  | none => 0

/-- Inversion of County normalization. -/
theorem normalizeCountyRow_some {row : CountyRow} {g : GeoRecord}
    (h : normalizeCountyRow row = some g) : g = countyRecordOf row := by
  cases ht : truthy row.geoId2 with
  | false => simp [normalizeCountyRow, ht] at h
  | true =>
    simp [normalizeCountyRow, ht] at h
    exact h.symm

/-- Inversion of Subcounty normalization. -/
theorem normalizeSubcountyRow_some {row : SubcountyRow} {g : GeoRecord}
    (h : normalizeSubcountyRow row = some g) : g = subcountyRecordOf row := by
  cases ht : truthy row.geoId2 with
  | false => simp [normalizeSubcountyRow, ht] at h
  | true =>
    simp [normalizeSubcountyRow, ht] at h
    exact h.symm

/-- Evaluation rule for toFixed1: if n bounds 10x + 1/2 from below within
one, toFixed1 x is n tenths. -/
theorem toFixed1_eq {x : ℚ} {n : Int} (h1 : (n : ℚ) ≤ 10 * x + 1 / 2)
    (h2 : 10 * x + 1 / 2 < n + 1) : toFixed1 x = (n : ℚ) / 10 := by
  unfold toFixed1
  rw [Int.floor_eq_iff.mpr ⟨h1, h2⟩]

/-- C4: every emitted record with positive totalHouseholds carries the
three reference rates at one-decimal precision (povertyRate =
100 * povertyHouseholds / totalHouseholds and its two companions), and the
county example row with Households 1000, Poverty 150, ALICE 300 yields
rates 15.0, 30.0, 45.0. -/
theorem C4_rate_formulas :
    (∀ (row : CountyRow) (g : GeoRecord), normalizeCountyRow row = some g →
        0 < g.totalHouseholds →
        g.povertyRate = toFixed1 (100 * (g.povertyHouseholds : ℚ) / (g.totalHouseholds : ℚ)) ∧
        g.aliceRate = toFixed1 (100 * (g.aliceHouseholds : ℚ) / (g.totalHouseholds : ℚ)) ∧
        g.combinedRate =
          toFixed1 (100 * ((g.povertyHouseholds : ℚ) + (g.aliceHouseholds : ℚ)) /
            (g.totalHouseholds : ℚ))) ∧
    (∀ (row : SubcountyRow) (g : GeoRecord), normalizeSubcountyRow row = some g →
        0 < g.totalHouseholds →
        g.povertyRate = toFixed1 (100 * (g.povertyHouseholds : ℚ) / (g.totalHouseholds : ℚ)) ∧
        g.aliceRate = toFixed1 (100 * (g.aliceHouseholds : ℚ) / (g.totalHouseholds : ℚ)) ∧
        g.combinedRate =
          toFixed1 (100 * ((g.povertyHouseholds : ℚ) + (g.aliceHouseholds : ℚ)) /
            (g.totalHouseholds : ℚ))) ∧
    (normalizeCountyRow exCountyRow).map (fun g => (g.povertyRate, g.aliceRate, g.combinedRate)) =
      some (15, 30, 45) := by
  refine ⟨?_, ?_, ?_⟩
  · intro row g hg htot
    obtain rfl := normalizeCountyRow_some hg
    simp only [countyRecordOf] at htot ⊢
    rw [if_pos htot, if_pos htot, if_pos htot]
    refine ⟨?_, ?_, ?_⟩ <;> · congr 1; ring
  · intro row g hg htot
    obtain rfl := normalizeSubcountyRow_some hg
    simp only [subcountyRecordOf] at htot ⊢
    rw [if_pos htot, if_pos htot, if_pos htot]
    refine ⟨?_, ?_, ?_⟩ <;> · congr 1; ring
  · have h1000 : parseIntOr0 exCountyRow.households = 1000 := by decide
    have h150 : parseIntOr0 exCountyRow.povertyHouseholds = 150 := by decide
    have h300 : parseIntOr0 exCountyRow.aliceHouseholds = 300 := by decide
    have e1 : toFixed1 (((150 : Int) : ℚ) / ((1000 : Int) : ℚ) * 100) = 15 := by
      rw [toFixed1_eq (n := 150) (by norm_num) (by norm_num)]
      norm_num
    have e2 : toFixed1 (((300 : Int) : ℚ) / ((1000 : Int) : ℚ) * 100) = 30 := by
      rw [toFixed1_eq (n := 300) (by norm_num) (by norm_num)]
      norm_num
    have e3 : toFixed1 ((((150 : Int) : ℚ) + ((300 : Int) : ℚ)) / ((1000 : Int) : ℚ) * 100) = 45 := by
      rw [toFixed1_eq (n := 450) (by norm_num) (by norm_num)]
      norm_num
    rw [show normalizeCountyRow exCountyRow = some (countyRecordOf exCountyRow) from rfl]
    simp only [Option.map_some', countyRecordOf, h1000, h150, h300]
    rw [if_pos (by norm_num : (0 : Int) < 1000), if_pos (by norm_num : (0 : Int) < 1000),
      if_pos (by norm_num : (0 : Int) < 1000)]
    rw [e1, e2, e3]

/-- Witness for C4 at the §8 example row. -/
theorem C4_rate_formulas_witness :
    (countyRecordOf exCountyRow).povertyRate =
      toFixed1 (100 * ((countyRecordOf exCountyRow).povertyHouseholds : ℚ) /
        ((countyRecordOf exCountyRow).totalHouseholds : ℚ)) ∧
    (countyRecordOf exCountyRow).aliceRate =
      toFixed1 (100 * ((countyRecordOf exCountyRow).aliceHouseholds : ℚ) /
        ((countyRecordOf exCountyRow).totalHouseholds : ℚ)) ∧
    (countyRecordOf exCountyRow).combinedRate =
      toFixed1 (100 * (((countyRecordOf exCountyRow).povertyHouseholds : ℚ) +
        ((countyRecordOf exCountyRow).aliceHouseholds : ℚ)) /
        ((countyRecordOf exCountyRow).totalHouseholds : ℚ)) :=
  C4_rate_formulas.1 exCountyRow (countyRecordOf exCountyRow) rfl (by decide)

/-- C8: every emitted record with totalHouseholds = 0 carries rate 0 in
all three rate fields; the division branch is guarded by
totalHouseholds > 0 and is never taken, so no NaN value can arise. -/
theorem C8_zero_household_guard :
    (∀ (row : CountyRow) (g : GeoRecord), normalizeCountyRow row = some g →
        g.totalHouseholds = 0 →
        g.povertyRate = 0 ∧ g.aliceRate = 0 ∧ g.combinedRate = 0) ∧
    (∀ (row : SubcountyRow) (g : GeoRecord), normalizeSubcountyRow row = some g →
        g.totalHouseholds = 0 →
        g.povertyRate = 0 ∧ g.aliceRate = 0 ∧ g.combinedRate = 0) := by
  constructor
  · intro row g hg htot
    obtain rfl := normalizeCountyRow_some hg
    simp only [countyRecordOf] at htot ⊢
    have hneg : ¬ (0 : Int) < parseIntOr0 row.households := by omega
    rw [if_neg hneg, if_neg hneg, if_neg hneg]
    exact ⟨rfl, rfl, rfl⟩
  · intro row g hg htot
    obtain rfl := normalizeSubcountyRow_some hg
    simp only [subcountyRecordOf] at htot ⊢
    have hneg : ¬ (0 : Int) < parseIntOr0 row.households := by omega
    rw [if_neg hneg, if_neg hneg, if_neg hneg]
    exact ⟨rfl, rfl, rfl⟩

/-- Witness for C8 at a county row with Households 0. -/
theorem C8_zero_household_guard_witness :
    (countyRecordOf exZeroHHRow).povertyRate = 0 ∧
    (countyRecordOf exZeroHHRow).aliceRate = 0 ∧
    (countyRecordOf exZeroHHRow).combinedRate = 0 :=
  C8_zero_household_guard.1 exZeroHHRow (countyRecordOf exZeroHHRow) rfl (by decide)

/-- Length of a padStart result: the target length, or the original length
when it already meets the target. -/
theorem padStart_length (s : String) (n : Nat) (c : Char) :
    (padStart s n c).length = max n s.length := by
  rcases s with ⟨l⟩
  simp [padStart, String.length]
  omega

/-- C5 counterexample: a County row whose identifier has 6 characters
emits a county record whose geoID has length 6, not 5 — padStart never
truncates, so the "always exactly 5 characters" invariant fails. -/
theorem C5_counterexample :
    (normalizeCountyRow exLongRow).map (fun g => g.geoID.length) = some 6 ∧ (6 : Nat) ≠ 5 := by
  decide

/-- C5 (amended): the geoID of every emitted county record is the GEO id2
string left-zero-padded to 5 characters; its length is the maximum of 5
and the raw length, hence exactly 5 whenever the raw identifier has at
most 5 characters (as genuine county FIPS codes do) — e.g. 1001 becomes
01001. -/
theorem C5_geoid_padding :
    (∀ (row : CountyRow) (g : GeoRecord), normalizeCountyRow row = some g →
        g.geoID = padStart (strOf row.geoId2) 5 '0' ∧
        g.geoID.length = max 5 (strOf row.geoId2).length ∧
        ((strOf row.geoId2).length ≤ 5 → g.geoID.length = 5)) ∧
    (normalizeCountyRow exCountyRow).map (fun g => g.geoID) = some "01001" := by
  constructor
  · intro row g hg
    obtain rfl := normalizeCountyRow_some hg
    have hid : (countyRecordOf row).geoID = padStart (strOf row.geoId2) 5 '0' := rfl
    refine ⟨hid, ?_, ?_⟩
    · rw [hid, padStart_length]
    · intro hle
      rw [hid, padStart_length]
      omega
  · decide

/-- Witness for C5 at the §8 example row. -/
theorem C5_geoid_padding_witness : (countyRecordOf exCountyRow).geoID.length = 5 :=
  (C5_geoid_padding.1 exCountyRow (countyRecordOf exCountyRow) rfl).2.2 (by decide)

/-- The parseInt-or-null idiom satisfies the corrected nullable-field
contract. -/
theorem parseIntOrNull_nullable (cell : Option String) :
    nullableField cell (parseIntOrNull cell) := by
  refine ⟨?_, ?_, ?_, ?_⟩
  · intro h
    subst h
    rfl
  · intro h
    simp [parseIntOrNull, h]
  · intro n h hn
    simp [parseIntOrNull, h, hn]
  · intro _ h
    simp [parseIntOrNull, h]

/-- C9 counterexample: the Poverty HH Black column is present with value
0, yet the emitted field is null — parseInt(cell) || null collapses a
present 0 to null, refuting "a column present with value 0 yields 0". -/
theorem C9_counterexample :
    exZeroRow.povertyHHBlack = some "0" ∧
    (normalizeCountyRow exZeroRow).map (fun g => g.povertyHH_Black) = some none := by
  decide

/-- C9 (amended): each optional demographic field of a County record is
null exactly when the column is absent, fails to parse, or parses to 0,
and carries the parsed integer count when it is nonzero. -/
theorem C9_nullable_demographics :
    ∀ (row : CountyRow) (g : GeoRecord), normalizeCountyRow row = some g →
      nullableField row.povertyHHBlack g.povertyHH_Black ∧
      nullableField row.povertyHHHispanic g.povertyHH_Hispanic ∧
      nullableField row.povertyHHWhite g.povertyHH_White ∧
      nullableField row.aliceHHBlack g.aliceHH_Black ∧
      nullableField row.aliceHHHispanic g.aliceHH_Hispanic ∧
      nullableField row.aliceHHWhite g.aliceHH_White := by
  intro row g hg
  obtain rfl := normalizeCountyRow_some hg
  exact ⟨parseIntOrNull_nullable _, parseIntOrNull_nullable _, parseIntOrNull_nullable _,
    parseIntOrNull_nullable _, parseIntOrNull_nullable _, parseIntOrNull_nullable _⟩

/-- Witness for C9 at a row whose Poverty HH Black column holds 7. -/
theorem C9_nullable_demographics_witness :
    nullableField exSevenRow.povertyHHBlack (countyRecordOf exSevenRow).povertyHH_Black :=
  (C9_nullable_demographics exSevenRow (countyRecordOf exSevenRow) rfl).1

/-- The nested conditionals of the source compute exactly the first-match
rule list of the specification. -/
theorem subcountyGeoLevel_eq_claim (ty : Option String) (geoID : String) :
    subcountyGeoLevel ty geoID = claimGeoLevel ty geoID := by
  cases hty : truthy ty with
  | false =>
    by_cases hlen : geoID.length = 11 <;>
      simp [subcountyGeoLevel, claimGeoLevel, hty, hlen]
  | true =>
    cases h1 : containsSub (strToLower (strOf ty)) "city" <;>
    cases h2 : containsSub (strToLower (strOf ty)) "town" <;>
    cases h3 : containsSub (strToLower (strOf ty)) "cdp" <;>
    cases h4 : containsSub (strToLower (strOf ty)) "tract" <;>
      simp [subcountyGeoLevel, claimGeoLevel, hty, h1, h2, h3, h4, List.find?]

/-- C3 counterexample: a Subcounty row typed Census Designated Place is
emitted with geoLevel subcounty, because cdp is not a substring of the
lower-cased type — refuting the claim that it yields cdp. -/
theorem C3_counterexample :
    (normalizeSubcountyRow exCdpLitRow).map (fun g => g.geoLevel) = some "subcounty" ∧
    ("subcounty" : String) ≠ "cdp" := by
  decide

/-- C3 (amended): the emitted geoLevel follows the two-tier first-match
policy (city, town, cdp, tract in priority order on the lower-cased
truthy Type, else tract for an 11-character identifier, else subcounty);
a Type whose text contains cdp yields cdp, but the spelled-out Census
Designated Place yields subcounty. -/
theorem C3_geolevel_policy :
    (∀ (row : SubcountyRow) (g : GeoRecord), normalizeSubcountyRow row = some g →
        g.geoLevel = claimGeoLevel row.type g.geoID) ∧
    (normalizeSubcountyRow exCdpLitRow).map (fun g => g.geoLevel) = some "subcounty" ∧
    (normalizeSubcountyRow exCdpRow).map (fun g => g.geoLevel) = some "cdp" ∧
    (normalizeSubcountyRow exTractRow).map (fun g => g.geoLevel) = some "tract" ∧
    (normalizeSubcountyRow exPlainRow).map (fun g => g.geoLevel) = some "subcounty" := by
  refine ⟨?_, by decide, by decide, by decide, by decide⟩
  intro row g hg
  obtain rfl := normalizeSubcountyRow_some hg
  exact subcountyGeoLevel_eq_claim row.type (strOf row.geoId2)

/-- Witness for C3 at a row typed Lakewood CDP. -/
theorem C3_geolevel_policy_witness :
    (subcountyRecordOf exCdpRow).geoLevel =
      claimGeoLevel exCdpRow.type (subcountyRecordOf exCdpRow).geoID :=
  C3_geolevel_policy.1 exCdpRow (subcountyRecordOf exCdpRow) rfl

/-- Once the loop accumulator is an error, every later iteration keeps it. -/
theorem buildStep_error (e : String) (rest : List (Except String Workbook)) :
    rest.foldl buildStep (Except.error e) = Except.error e := by
  induction rest with
  | nil => rfl
  | cons f rest ih => simpa [buildStep] using ih

/-- After any run of readable workbooks, the first unreadable file drives
the whole fold to its error. -/
theorem foldl_ok_then_error (e : String) (rest : List (Except String Workbook)) :
    ∀ (wbs : List Workbook) (recs : List GeoRecord),
      List.foldl buildStep (Except.ok recs) (wbs.map Except.ok ++ Except.error e :: rest) =
        Except.error e := by
  intro wbs
  induction wbs with
  | nil =>
    intro recs
    simp only [List.map_nil, List.nil_append, List.foldl_cons]
    exact buildStep_error e rest
  | cons w wbs ih =>
    intro recs
    simp only [List.map_cons, List.cons_append, List.foldl_cons]
    exact ih (recs ++ processWorkbook w)

/-- C2 counterexample: with a readable file before and after, one
unreadable file makes buildMasterDatabase reject and main produce no
database at all — the earlier file's records (which exist) are not
retained and the later file is never processed. -/
theorem C2_counterexample :
    buildMasterDatabase [Except.ok exWorkbook, Except.error "unreadable", Except.ok exWorkbook] =
      Except.error "unreadable" ∧
    mainPipeline [Except.ok exWorkbook, Except.error "unreadable", Except.ok exWorkbook] = none ∧
    processWorkbook exWorkbook ≠ [] := by
  refine ⟨rfl, rfl, ?_⟩
  decide

/-- C2 (amended): a file that cannot be opened or parsed is globally
fatal, not skipped: the error propagates out of the per-file loop (which
has no try/catch) to the single catch in main, so the run produces no
records — contributions of files before the failure are discarded and
files after it are never processed. -/
theorem C2_error_aborts_run :
    ∀ (wbs : List Workbook) (e : String) (rest : List (Except String Workbook)),
      buildMasterDatabase (wbs.map Except.ok ++ Except.error e :: rest) = Except.error e ∧
      mainPipeline (wbs.map Except.ok ++ Except.error e :: rest) = none := by
  intro wbs e rest
  have h := foldl_ok_then_error e rest wbs []
  refine ⟨h, ?_⟩
  simp [mainPipeline, buildMasterDatabase, h]

/-- The forEach fold increments each national counter by exactly the sum
of the corresponding field over the county-level records seen. -/
theorem aggStep_foldl_national (db : List GeoRecord) :
    ∀ acc : NationalTotals × StateMap,
      (db.foldl aggStep acc).1.totalHouseholds =
        acc.1.totalHouseholds + sumBy (countyRecords db) (fun r => r.totalHouseholds) ∧
      (db.foldl aggStep acc).1.povertyHouseholds =
        acc.1.povertyHouseholds + sumBy (countyRecords db) (fun r => r.povertyHouseholds) ∧
      (db.foldl aggStep acc).1.aliceHouseholds =
        acc.1.aliceHouseholds + sumBy (countyRecords db) (fun r => r.aliceHouseholds) ∧
      (db.foldl aggStep acc).1.aboveAliceHouseholds =
        acc.1.aboveAliceHouseholds + sumBy (countyRecords db) (fun r => r.aboveAliceHouseholds) := by
  induction db with
  | nil =>
    intro acc
    simp [countyRecords, sumBy]
  | cons r db ih =>
    intro acc
    obtain ⟨h1, h2, h3, h4⟩ := ih (aggStep acc r)
    by_cases hr : r.geoLevel = "county"
    · refine ⟨?_, ?_, ?_, ?_⟩
      · simp only [List.foldl_cons]
        rw [h1]
        simp [aggStep, hr, countyRecords, sumBy]
        omega
      · simp only [List.foldl_cons]
        rw [h2]
        simp [aggStep, hr, countyRecords, sumBy]
        omega
      · simp only [List.foldl_cons]
        rw [h3]
        simp [aggStep, hr, countyRecords, sumBy]
        omega
      · simp only [List.foldl_cons]
        rw [h4]
        simp [aggStep, hr, countyRecords, sumBy]
        omega
    · refine ⟨?_, ?_, ?_, ?_⟩
      · simp only [List.foldl_cons]
        rw [h1]
        simp [aggStep, hr, countyRecords, sumBy]
      · simp only [List.foldl_cons]
        rw [h2]
        simp [aggStep, hr, countyRecords, sumBy]
      · simp only [List.foldl_cons]
        rw [h3]
        simp [aggStep, hr, countyRecords, sumBy]
      · simp only [List.foldl_cons]
        rw [h4]
        simp [aggStep, hr, countyRecords, sumBy]

/-- The forEach fold increments each per-state counter by exactly the sum
of the corresponding field over the county-level records of that state,
for any counter f whose update law is given by g. -/
theorem aggStep_foldl_state (f : StateAgg → Int) (g : GeoRecord → Int)
    (hupd : ∀ prev r, f (stateUpd prev r) = f prev + g r)
    (hzero : f emptyStateAgg = 0) (db : List GeoRecord) :
    ∀ (acc : NationalTotals × StateMap) (s : Option String),
      stateTotal (db.foldl aggStep acc).2 s f =
        stateTotal acc.2 s f +
          sumBy ((countyRecords db).filter (fun r => r.state == s)) g := by
  induction db with
  | nil =>
    intro acc s
    simp [countyRecords, sumBy]
  | cons r db ih =>
    intro acc s
    simp only [List.foldl_cons]
    rw [ih (aggStep acc r) s]
    by_cases hr : r.geoLevel = "county"
    · by_cases hs : s = r.state
      · have hkey : stateTotal (aggStep acc r).2 s f = stateTotal acc.2 s f + g r := by
          subst hs
          simp only [aggStep, if_pos hr, stateTotal, ite_true]
          rw [hupd]
          cases hacc : acc.2 r.state <;> simp [hacc, hzero]
        rw [hkey]
        have hb : (r.state == s) = true := by
          subst hs
          simp
        simp [countyRecords, sumBy, hr, hb]
        omega
      · have hkey : stateTotal (aggStep acc r).2 s f = stateTotal acc.2 s f := by
          simp only [aggStep, if_pos hr, stateTotal]
          simp only [if_neg hs]
        rw [hkey]
        have hb : (r.state == s) = false := by
          simp only [beq_eq_false_iff_ne, ne_eq]
          intro hcontra
          exact hs hcontra.symm
        simp [countyRecords, sumBy, hr, hb]
    · have hkey : stateTotal (aggStep acc r).2 s f = stateTotal acc.2 s f := by
        simp [aggStep, hr]
      rw [hkey]
      simp [countyRecords, sumBy, hr]

/-- C1: the national totals and every per-state total of the aggregate
report are the sums of the corresponding fields over exactly the
county-level records; records of any other geoLevel are excluded by the
county filter and so contribute nothing to any rollup.  (A byState entry
carries only total, poverty and ALICE counts — it has no
aboveAliceHouseholds field.) -/
theorem C1_county_only_rollups (db : List GeoRecord) :
    (createAggregatedStats db).national.totalHouseholds =
      sumBy (countyRecords db) (fun r => r.totalHouseholds) ∧
    (createAggregatedStats db).national.povertyHouseholds =
      sumBy (countyRecords db) (fun r => r.povertyHouseholds) ∧
    (createAggregatedStats db).national.aliceHouseholds =
      sumBy (countyRecords db) (fun r => r.aliceHouseholds) ∧
    (createAggregatedStats db).national.aboveAliceHouseholds =
      sumBy (countyRecords db) (fun r => r.aboveAliceHouseholds) ∧
    ∀ s : Option String,
      stateTotal (createAggregatedStats db).byState s (fun a => a.totalHouseholds) =
        sumBy ((countyRecords db).filter (fun r => r.state == s)) (fun r => r.totalHouseholds) ∧
      stateTotal (createAggregatedStats db).byState s (fun a => a.povertyHouseholds) =
        sumBy ((countyRecords db).filter (fun r => r.state == s)) (fun r => r.povertyHouseholds) ∧
      stateTotal (createAggregatedStats db).byState s (fun a => a.aliceHouseholds) =
        sumBy ((countyRecords db).filter (fun r => r.state == s)) (fun r => r.aliceHouseholds) := by
  obtain ⟨h1, h2, h3, h4⟩ := aggStep_foldl_national db (⟨0, 0, 0, 0⟩, fun _ => none)
  have hs1 := aggStep_foldl_state (fun a => a.totalHouseholds) (fun r => r.totalHouseholds)
    (fun prev r => by simp [stateUpd]) rfl db (⟨0, 0, 0, 0⟩, fun _ => none)
  have hs2 := aggStep_foldl_state (fun a => a.povertyHouseholds) (fun r => r.povertyHouseholds)
    (fun prev r => by simp [stateUpd]) rfl db (⟨0, 0, 0, 0⟩, fun _ => none)
  have hs3 := aggStep_foldl_state (fun a => a.aliceHouseholds) (fun r => r.aliceHouseholds)
    (fun prev r => by simp [stateUpd]) rfl db (⟨0, 0, 0, 0⟩, fun _ => none)
  refine ⟨?_, ?_, ?_, ?_, ?_⟩
  · simpa [createAggregatedStats] using h1
  · simpa [createAggregatedStats] using h2
  · simpa [createAggregatedStats] using h3
  · simpa [createAggregatedStats] using h4
  · intro s
    refine ⟨?_, ?_, ?_⟩
    · simpa [createAggregatedStats, stateTotal] using hs1 s
    · simpa [createAggregatedStats, stateTotal] using hs2 s
    · simpa [createAggregatedStats, stateTotal] using hs3 s

/-- Case analysis of the unguarded national-rate computation. -/
theorem jsRateOf_spec (num den : Int) :
    (den ≠ 0 → jsRateOf num den = some (toFixed1 (100 * (num : ℚ) / (den : ℚ)))) ∧
    (den = 0 → jsRateOf num den = none) := by
  constructor
  · intro h
    simp only [jsRateOf, if_neg h]
    congr 2
    ring
  · intro h
    simp [jsRateOf, h]

/-- C7 counterexample: a collection holding only a (nonempty) subcounty
record sums county households to 0, and the national rates are then not
the claimed 0 — the division is performed with no guard and yields NaN,
modelled as none. -/
theorem C7_counterexample :
    (createAggregatedStats [exSubRec]).national.totalHouseholds = 0 ∧
    (createAggregatedStats [exSubRec]).national.povertyRate ≠ some 0 ∧
    (createAggregatedStats [exSubRec]).national.aliceRate ≠ some 0 ∧
    (createAggregatedStats [exSubRec]).national.combinedRate ≠ some 0 := by
  refine ⟨rfl, ?_, ?_, ?_⟩ <;> decide

/-- C7 (amended): the national rates apply the Rate Calculator formulas to
the summed county-level counts (sum-then-divide, never an average of
per-record rates), but without its division-by-zero guard: when the
summed totalHouseholds is 0 the computation yields no number (NaN,
modelled as none) rather than 0. -/
theorem C7_national_rates (db : List GeoRecord) :
    ((createAggregatedStats db).national.totalHouseholds ≠ 0 →
      (createAggregatedStats db).national.povertyRate =
        some (toFixed1 (100 * ((createAggregatedStats db).national.povertyHouseholds : ℚ) /
          ((createAggregatedStats db).national.totalHouseholds : ℚ))) ∧
      (createAggregatedStats db).national.aliceRate =
        some (toFixed1 (100 * ((createAggregatedStats db).national.aliceHouseholds : ℚ) /
          ((createAggregatedStats db).national.totalHouseholds : ℚ))) ∧
      (createAggregatedStats db).national.combinedRate =
        some (toFixed1 (100 * (((createAggregatedStats db).national.povertyHouseholds +
            (createAggregatedStats db).national.aliceHouseholds : Int) : ℚ) /
          ((createAggregatedStats db).national.totalHouseholds : ℚ)))) ∧
    ((createAggregatedStats db).national.totalHouseholds = 0 →
      (createAggregatedStats db).national.povertyRate = none ∧
      (createAggregatedStats db).national.aliceRate = none ∧
      (createAggregatedStats db).national.combinedRate = none) := by
  constructor
  · intro h
    simp only [createAggregatedStats] at h ⊢
    exact ⟨(jsRateOf_spec _ _).1 h, (jsRateOf_spec _ _).1 h, (jsRateOf_spec _ _).1 h⟩
  · intro h
    simp only [createAggregatedStats] at h ⊢
    exact ⟨(jsRateOf_spec _ _).2 h, (jsRateOf_spec _ _).2 h, (jsRateOf_spec _ _).2 h⟩

/-- Witness for C7: both branches at concrete collections. -/
theorem C7_national_rates_witness :
    ((createAggregatedStats [exB]).national.povertyRate =
      some (toFixed1 (100 * ((createAggregatedStats [exB]).national.povertyHouseholds : ℚ) /
        ((createAggregatedStats [exB]).national.totalHouseholds : ℚ))) ∧
    (createAggregatedStats [exB]).national.aliceRate =
      some (toFixed1 (100 * ((createAggregatedStats [exB]).national.aliceHouseholds : ℚ) /
        ((createAggregatedStats [exB]).national.totalHouseholds : ℚ))) ∧
    (createAggregatedStats [exB]).national.combinedRate =
      some (toFixed1 (100 * (((createAggregatedStats [exB]).national.povertyHouseholds +
          (createAggregatedStats [exB]).national.aliceHouseholds : Int) : ℚ) /
        ((createAggregatedStats [exB]).national.totalHouseholds : ℚ)))) ∧
    ((createAggregatedStats [exSubRec]).national.povertyRate = none ∧
    (createAggregatedStats [exSubRec]).national.aliceRate = none ∧
    (createAggregatedStats [exSubRec]).national.combinedRate = none) :=
  ⟨(C7_national_rates [exB]).1 (by decide), (C7_national_rates [exSubRec]).2 (by decide)⟩

/-- C6: the extremes pipeline filters county records with positive
combined rate, stably sorts them descending by combined rate (ties keep
collection order), and takes the first ten as highest and the reversed
last ten as lowest; on combined rates [10, 50, 50, 5] the highest list
orders both 50-records (original relative order preserved) before the 10
before the 5. -/
theorem C6_extremes :
    (∀ db : List GeoRecord,
        List.Sorted rateGE (sortedByRate db) ∧
        List.Perm (sortedByRate db) (db.filter extremesPred) ∧
        (createAggregatedStats db).highestCombinedRate =
          ((sortedByRate db).take 10).map toExtremeEntry ∧
        (createAggregatedStats db).lowestCombinedRate =
          ((sliceLast 10 (sortedByRate db)).reverse).map toExtremeEntry) ∧
    sortedByRate exDb = [exB, exC, exA, exD] ∧
    (createAggregatedStats exDb).highestCombinedRate =
      [toExtremeEntry exB, toExtremeEntry exC, toExtremeEntry exA, toExtremeEntry exD] ∧
    (createAggregatedStats exDb).lowestCombinedRate =
      [toExtremeEntry exD, toExtremeEntry exA, toExtremeEntry exC, toExtremeEntry exB] := by
  refine ⟨?_, by decide, by decide, by decide⟩
  intro db
  exact ⟨List.sorted_insertionSort rateGE _, List.perm_insertionSort rateGE _, rfl, rfl⟩

/-- Replacing the freshly allocated last cell of an array store. -/
theorem set_append_length {α : Type} (h : List α) (c x : α) :
    (h ++ [c]).set h.length x = h ++ [x] := by
  induction h with
  | nil => rfl
  | cons a h ih => simp [List.set, ih]

/-- C10: aggregation does not modify its input: in the store-passing model
the database array read back after createAggregatedStats is exactly the
input array (the sort mutates only the fresh array allocated by filter),
and the statistics are a pure function of the records read. -/
theorem C10_aggregation_pure (h : List (List GeoRecord)) (dbRef : Nat)
    (hlt : dbRef < h.length) :
    readArr (createAggregatedStatsHeap h dbRef).2 dbRef = readArr h dbRef ∧
    (createAggregatedStatsHeap h dbRef).1 = createAggregatedStats (readArr h dbRef) := by
  constructor
  · simp only [createAggregatedStatsHeap]
    rw [set_append_length]
    simp only [readArr]
    rw [List.getElem?_append, if_pos hlt]
  · rfl

/-- Witness for C10 at a one-array store. -/
theorem C10_aggregation_pure_witness :
    readArr (createAggregatedStatsHeap [[exA]] 0).2 0 = readArr [[exA]] 0 :=
  (C10_aggregation_pure [[exA]] 0 (by decide)).1
